import Mathlib

/-!
Shallow embedding of the maya chat gateway backend (Go file `be-go/main.go`
in its extended form with Redis session storage).  Pure data flow is
translated directly; the external world (Redis, the provider HTTP endpoints,
JSON decoding of provider responses) is passed in explicitly as oracle
parameters, so every function here is a computable Lean function.
-/

namespace Maya

/-- Message represents a single turn in the conversation, used for storage
and retrieval.  Go: `type Message struct { Role string; Text string }`. -/
structure Message where
  role : String
  text : String
deriving DecidableEq, Repr

/-- The element type of `ClientRequestPayload.Contents` (an anonymous struct
in Go with the same two fields as `Message`). -/
structure ClientContent where
  role : String
  text : String
deriving DecidableEq, Repr

/-- ClientRequestPayload: the structure of the incoming request from the
client.  Go fields: SessionID, ModelName, Contents. -/
structure ClientRequestPayload where
  sessionID : String
  modelName : String
  contents : List ClientContent
deriving DecidableEq, Repr

/-! Gemini API structs. -/

structure GeminiPart where
  text : String
deriving DecidableEq, Repr

structure GeminiMessage where
  role : String
  parts : List GeminiPart
deriving DecidableEq, Repr

/-- One element of `GeminiResponse.Candidates` (anonymous struct in Go). -/
structure GeminiCandidate where
  content : GeminiMessage
deriving DecidableEq, Repr

structure GeminiResponse where
  candidates : List GeminiCandidate
deriving DecidableEq, Repr

/-- The Go `GenerationConfig` is a `map[string]interface` holding the fixed
numeric generation parameters.  The claims never inspect these values, so
each entry is embedded as the literal key and the literal token written in
the source. -/
def generationConfig : List (String × String) :=
  [("temperature", "0.7"), ("topP", "0.95"), ("topK", "40"),
   ("maxOutputTokens", "1024")]

structure GeminiPayload where
  contents : List GeminiMessage
  generationConfig : List (String × String)
deriving DecidableEq, Repr

/-! OpenAI (ChatGPT) API structs. -/

structure OpenaiMessage where
  role : String
  content : String
deriving DecidableEq, Repr

structure OpenaiPayload where
  model : String
  messages : List OpenaiMessage
deriving DecidableEq, Repr

/-- `OpenaiResponse.Choices` elements hold one message each. -/
structure OpenaiChoice where
  message : OpenaiMessage
deriving DecidableEq, Repr

structure OpenaiResponse where
  choices : List OpenaiChoice
deriving DecidableEq, Repr

/-! Anthropic (Claude) API structs. -/

structure AnthropicMessage where
  role : String
  content : String
deriving DecidableEq, Repr

structure AnthropicPayload where
  model : String
  messages : List AnthropicMessage
  maxTokens : Nat
deriving DecidableEq, Repr

/-- One element of `AnthropicResponse.Content` (anonymous struct with a
single Text field in Go). -/
structure AnthropicContent where
  text : String
deriving DecidableEq, Repr

structure AnthropicResponse where
  content : List AnthropicContent
deriving DecidableEq, Repr

/-! Perplexity (Llama) API structs. -/

structure PerplexityMessage where
  role : String
  content : String
deriving DecidableEq, Repr

structure PerplexityPayload where
  model : String
  messages : List PerplexityMessage
deriving DecidableEq, Repr

structure PerplexityChoice where
  message : PerplexityMessage
deriving DecidableEq, Repr

structure PerplexityResponse where
  choices : List PerplexityChoice
deriving DecidableEq, Repr

/-! ### Role mapping

Each `callXAPI` function contains an inline `switch c.Role` that maps the
canonical role to the provider role and skips (`continue`) any other role.
The switch of each adapter is embedded as a total function returning
`none` for the skipped default branch. -/

/-- Role switch in `callGeminiAPI`: user to user, ai to model, system to
user, anything else skipped. -/
def geminiRole (role : String) : Option String :=
  if role = "user" then some "user"
  else if role = "ai" then some "model"
  else if role = "system" then some "user"
  else none

/-- Role switch in `callLlamaAPI`: user to user, ai to assistant, system to
user, anything else skipped. -/
def llamaRole (role : String) : Option String :=
  if role = "user" then some "user"
  else if role = "ai" then some "assistant"
  else if role = "system" then some "user"
  else none

/-- Role switch in `callClaudeAPI`.  The source maps the canonical ai role
to the literal string "asssitant" (sic, as written in the Go source). -/
def claudeRole (role : String) : Option String :=
  if role = "user" then some "user"
  else if role = "ai" then some "asssitant"
  else if role = "system" then some "user"
  else none

/-- Role switch in `callChatGPTAPI`: user to user, ai to assistant, system
to user, anything else skipped. -/
def openaiRole (role : String) : Option String :=
  if role = "user" then some "user"
  else if role = "ai" then some "assistant"
  else if role = "system" then some "user"
  else none

/-! ### Payload message lists

`callGeminiAPI` builds its slice with `make(..., 0, len(contents))` (length
zero, capacity only) and appends the mapped messages, so the result is
exactly the mapped messages in input order.  The Go code also guards the
append with `if role != ""`, which is always true after the switch because
every non-skipped branch assigns a non-empty role.

`callLlamaAPI`, `callClaudeAPI` and `callChatGPTAPI` instead build their
slices with `make(..., len(contents))`, which allocates `len(contents)`
zero-valued elements, and then append; the zero-valued elements therefore
precede the mapped messages in the outbound payload. -/

def geminiContents (contents : List Message) : List GeminiMessage :=
  contents.filterMap fun c =>
    (geminiRole c.role).map fun role => GeminiMessage.mk role [⟨c.text⟩]

def llamaMessages (contents : List Message) : List PerplexityMessage :=
  List.replicate contents.length (PerplexityMessage.mk "" "")
    ++ contents.filterMap fun c =>
      (llamaRole c.role).map fun role => PerplexityMessage.mk role c.text

def claudeMessages (contents : List Message) : List AnthropicMessage :=
  List.replicate contents.length (AnthropicMessage.mk "" "")
    ++ contents.filterMap fun c =>
      (claudeRole c.role).map fun role => AnthropicMessage.mk role c.text

def openaiMessages (contents : List Message) : List OpenaiMessage :=
  List.replicate contents.length (OpenaiMessage.mk "" "")
    ++ contents.filterMap fun c =>
      (openaiRole c.role).map fun role => OpenaiMessage.mk role c.text

/-! ### HTTP request layer

`makeAPIRequest` (and its two header variants, which differ only in the
headers they set) posts the payload and fails on a transport error or on a
non-200 status; in the non-200 case the Go error is
`fmt.Errorf("API returned status code %d: %s", resp.StatusCode, body)`,
which keeps both the upstream status code and the upstream body.  The
outcome of the external POST is supplied as a value of `HTTPOutcome`. -/

/-- What the external HTTP POST did: a transport-level failure from
`client.Do`, or a response with a status code and a body. -/
inductive HTTPOutcome where
  | failure (msg : String)
  | response (statusCode : Nat) (body : String)
deriving DecidableEq, Repr

/-- The upstream error message produced by `makeAPIRequest` on a non-200
status: `"API returned status code %d: %s"` with the status and body. -/
def apiStatusErrorMsg (statusCode : Nat) (body : String) : String :=
  "API returned status code " ++ toString statusCode ++ ": " ++ body

/-- `makeAPIRequest` and its header variants: return the response body on
status 200, otherwise an error (transport error, or non-200 status with the
status code and body embedded in the message). -/
def makeAPIRequest (outcome : HTTPOutcome) : Except String String :=
  match outcome with
  | .failure msg => .error ("error making API request: " ++ msg)
  | .response statusCode body =>
      if statusCode ≠ 200 then .error (apiStatusErrorMsg statusCode body)
      else .ok body

/-! ### Provider adapters

Each adapter checks its API key, builds the provider payload from the
canonical transcript, performs the POST, decodes the provider response
envelope (the JSON decoder is an oracle `String → Option R`; `none` is a
decoding failure) and extracts the first candidate text. -/

/-- `callGeminiAPI` from the source, with the external POST and the JSON
decoding passed in as oracles. -/
def callGeminiAPI (apiKey : String) (decode : String → Option GeminiResponse)
    (http : GeminiPayload → HTTPOutcome) (contents : List Message) :
    Except String String :=
  if apiKey = "" then
    .error "GEMINI_API_KEY environment variable not set"
  else
    match makeAPIRequest (http ⟨geminiContents contents, generationConfig⟩) with
    | .error e => .error e
    | .ok body =>
      match decode body with
      | none => .error "error parsing Gemini response"
      | some result =>
        match result.candidates with
        | [] => .error "unexpected Gemini response structure"
        | cand :: _ =>
          match cand.content.parts with
          | [] => .error "unexpected Gemini response structure"
          | part :: _ => .ok part.text

/-- `callLlamaAPI` from the source (Perplexity endpoint). -/
def callLlamaAPI (apiKey : String) (decode : String → Option PerplexityResponse)
    (http : PerplexityPayload → HTTPOutcome) (contents : List Message) :
    Except String String :=
  if apiKey = "" then
    .error "LLAMA_API_KEY environment variable not set"
  else
    match makeAPIRequest
        (http ⟨"llama-3-sonar-small-32k-online", llamaMessages contents⟩) with
    | .error e => .error e
    | .ok body =>
      match decode body with
      | none => .error "error parsing Llama response"
      | some result =>
        match result.choices with
        | [] => .error "unexpected Llama response structure"
        | choice :: _ => .ok choice.message.content

/-- `callClaudeAPI` from the source (Anthropic endpoint, MaxTokens 1024). -/
def callClaudeAPI (apiKey : String) (decode : String → Option AnthropicResponse)
    (http : AnthropicPayload → HTTPOutcome) (contents : List Message) :
    Except String String :=
  if apiKey = "" then
    .error "CLAUDE_API_KEY environment variable not set"
  else
    match makeAPIRequest
        (http ⟨"claude-3-opus-20240229", claudeMessages contents, 1024⟩) with
    | .error e => .error e
    | .ok body =>
      match decode body with
      | none => .error "error parsing Claude response"
      | some result =>
        match result.content with
        | [] => .error "unexpected Claude response structure"
        | c :: _ => .ok c.text

/-- `callChatGPTAPI` from the source (OpenAI endpoint, model gpt-4o). -/
def callChatGPTAPI (apiKey : String) (decode : String → Option OpenaiResponse)
    (http : OpenaiPayload → HTTPOutcome) (contents : List Message) :
    Except String String :=
  if apiKey = "" then
    .error "CHATGPT_API_KEY environment variable not set"
  else
    match makeAPIRequest (http ⟨"gpt-4o", openaiMessages contents⟩) with
    | .error e => .error e
    | .ok body =>
      match decode body with
      | none => .error "error parsing ChatGPT response"
      | some result =>
        match result.choices with
        | [] => .error "unexpected ChatGPT response structure"
        | choice :: _ => .ok choice.message.content

/-! ### Session store

The Redis key for the session holds a JSON array of messages; here the
store content for the one session under discussion is an
`Option (List Message)` (`none` = key absent, the `redis.Nil` case).  A
read may fail (connection error / uninitialized client / corrupt JSON) and
a write may fail; whether they do on a given request is part of the request
environment. -/

/-- `getHistoryFromRedis`: empty history when the key is absent
(`redis.Nil`), error when the store is unreachable. -/
def getHistoryFromRedis (getFails : Bool) (stored : Option (List Message)) :
    Except String (List Message) :=
  if getFails then .error "redis error retrieving history"
  else .ok (stored.getD [])

/-- `saveHistoryToRedis`: overwrite the key with the full history (TTL 24h
in the source); fails when the store is unreachable. -/
def saveHistoryToRedis (saveOk : Bool) (history : List Message) :
    Except String (List Message) :=
  if saveOk then .ok history
  else .error "redis error saving history"

/-- The fixed system prompt prepended by the handler when the loaded
history is empty. -/
def systemPrompt : Message :=
  ⟨"system", "You are a helpful and friendly AI assistant. Keep your answers concise."⟩

/-- Step 3 of `chatHandler`: if the history is empty, append the system
prompt; otherwise leave it unchanged. -/
def seedHistory (history : List Message) : List Message :=
  if history = [] then history ++ [systemPrompt]
  else history

/-- The external world for one `/chat` request: provider API keys, one HTTP
oracle and one response decoder per provider, and whether the two store
operations succeed on this request. -/
structure ChatEnv where
  geminiAPIKey : String
  llamaAPIKey : String
  claudeAPIKey : String
  chatGPTAPIKey : String
  geminiHTTP : GeminiPayload → HTTPOutcome
  llamaHTTP : PerplexityPayload → HTTPOutcome
  claudeHTTP : AnthropicPayload → HTTPOutcome
  openaiHTTP : OpenaiPayload → HTTPOutcome
  decodeGemini : String → Option GeminiResponse
  decodeLlama : String → Option PerplexityResponse
  decodeClaude : String → Option AnthropicResponse
  decodeOpenai : String → Option OpenaiResponse
  getFails : Bool
  saveOk : Bool

/-- The HTTP reply written by the handler: `http.Error(w, message, status)`
or the 200 JSON body with the text field. -/
inductive HttpReply where
  | error (message : String) (status : Nat)
  | json (text : String)
deriving DecidableEq, Repr

/-- Everything observable about one `chatHandler` run: the reply, the store
content for the session after the request, and which effects happened
(store read attempted, provider called, store write attempted). -/
structure HandlerOutcome where
  reply : HttpReply
  store : Option (List Message)
  storeRead : Bool
  providerCalled : Bool
  saveAttempted : Bool
deriving DecidableEq, Repr

/-- The `switch clientPayload.ModelName` dispatch of `chatHandler`:
`some` the selected adapter result, `none` for the default branch. -/
def selectedCall (env : ChatEnv) (modelName : String)
    (history : List Message) : Option (Except String String) :=
  if modelName = "gemini" then
    some (callGeminiAPI env.geminiAPIKey env.decodeGemini env.geminiHTTP history)
  else if modelName = "llama" then
    some (callLlamaAPI env.llamaAPIKey env.decodeLlama env.llamaHTTP history)
  else if modelName = "claude" then
    some (callClaudeAPI env.claudeAPIKey env.decodeClaude env.claudeHTTP history)
  else if modelName = "chatgpt" then
    some (callChatGPTAPI env.chatGPTAPIKey env.decodeOpenai env.openaiHTTP history)
  else none

/-- `chatHandler` for a POST request (the OPTIONS and non-POST method
branches of the source return before touching the payload and are not
modelled).  Mirrors the numbered steps of the source: validate required
fields (400), load history (500 on store failure), seed the system prompt
when the history is empty, append `Contents[0]` as the new message, call
the selected provider (400 on an unknown model, 500 on an adapter error),
append the AI message with role "ai", save (a save failure is only logged),
reply with the JSON text. -/
def chatHandler (env : ChatEnv) (payload : ClientRequestPayload)
    (store : Option (List Message)) : HandlerOutcome :=
  if payload.sessionID = "" then
    ⟨.error "Missing sessionId or message content" 400, store, false, false, false⟩
  else
    match payload.contents with
    | [] =>
      ⟨.error "Missing sessionId or message content" 400, store, false, false, false⟩
    | newMessage :: _ =>
      match getHistoryFromRedis env.getFails store with
      | .error _ =>
        ⟨.error "Internal server error retrieving history" 500, store, true, false, false⟩
      | .ok history =>
        match selectedCall env payload.modelName
            (seedHistory history ++ [⟨newMessage.role, newMessage.text⟩]) with
        | none =>
          ⟨.error "Invalid model name" 400, store, true, false, false⟩
        | some (.error e) =>
          ⟨.error e 500, store, true, true, false⟩
        | some (.ok aiText) =>
          match saveHistoryToRedis env.saveOk
              (seedHistory history ++ [⟨newMessage.role, newMessage.text⟩, ⟨"ai", aiText⟩]) with
          | .ok saved => ⟨.json aiText, some saved, true, true, true⟩
          | .error _ => ⟨.json aiText, store, true, true, true⟩

/-- One client turn: the request payload together with the state of the
external world during that request. -/
structure ChatTurn where
  env : ChatEnv
  payload : ClientRequestPayload

/-- Run a sequence of turns against one session, threading the stored
transcript from each request to the next (no concurrency). -/
def runTurns (store : Option (List Message)) :
    List ChatTurn → Option (List Message)
  | [] => store
  | t :: ts => runTurns (chatHandler t.env t.payload store).store ts

/-! ### Concrete fixtures used by witnesses and counterexamples -/

/-- A Gemini response whose first candidate text is "hello". -/
def okGemini : GeminiResponse := ⟨[⟨⟨"model", [⟨"hello"⟩]⟩⟩]⟩

/-- A Perplexity response whose first choice content is "hello". -/
def okLlama : PerplexityResponse := ⟨[⟨⟨"assistant", "hello"⟩⟩]⟩

/-- An Anthropic response whose first content text is "hello". -/
def okClaude : AnthropicResponse := ⟨[⟨"hello"⟩]⟩

/-- An OpenAI response whose first choice content is "hello". -/
def okOpenai : OpenaiResponse := ⟨[⟨⟨"assistant", "hello"⟩⟩]⟩

/-- A fully healthy environment: all keys set, every provider replies 200
with a body decoding to a "hello" reply, both store operations succeed. -/
def testEnv : ChatEnv where
  geminiAPIKey := "key"
  llamaAPIKey := "key"
  claudeAPIKey := "key"
  chatGPTAPIKey := "key"
  geminiHTTP := fun _ => .response 200 "ok-body"
  llamaHTTP := fun _ => .response 200 "ok-body"
  claudeHTTP := fun _ => .response 200 "ok-body"
  openaiHTTP := fun _ => .response 200 "ok-body"
  decodeGemini := fun _ => some okGemini
  decodeLlama := fun _ => some okLlama
  decodeClaude := fun _ => some okClaude
  decodeOpenai := fun _ => some okOpenai
  getFails := false
  saveOk := true

/-- A standard first request: session s1, model gemini, one user message. -/
def testPayload : ClientRequestPayload := ⟨"s1", "gemini", [⟨"user", "hi"⟩]⟩

/-- Like `testEnv` but every provider endpoint answers with HTTP status 500
and the body "upstream boom". -/
def upstreamFailEnv : ChatEnv :=
  { testEnv with
    geminiHTTP := fun _ => .response 500 "upstream boom"
    llamaHTTP := fun _ => .response 500 "upstream boom"
    claudeHTTP := fun _ => .response 500 "upstream boom"
    openaiHTTP := fun _ => .response 500 "upstream boom" }

/-! ### Helper lemmas -/

/-- The seeded history is never empty. -/
lemma seedHistory_ne_nil (history : List Message) : seedHistory history ≠ [] := by
  unfold seedHistory
  split <;> simp_all

/-- Appending to a list keeps its head. -/
lemma head?_append_of_head? {α : Type} (l l' : List α) (a : α)
    (h : l.head? = some a) : (l ++ l').head? = some a := by
  cases l with
  | nil => simp at h
  | cons x t => simpa using h

/-- Every run of `chatHandler` either leaves the stored transcript
unchanged or stores the seeded loaded history extended by exactly two
messages. -/
lemma chatHandler_store_shape (env : ChatEnv) (payload : ClientRequestPayload)
    (store : Option (List Message)) :
    (chatHandler env payload store).store = store ∨
    ∃ u a : Message,
      (chatHandler env payload store).store =
        some (seedHistory (store.getD []) ++ [u, a]) := by
  by_cases hsid : payload.sessionID = ""
  · exact Or.inl (by simp [chatHandler, hsid])
  cases hc : payload.contents with
  | nil => exact Or.inl (by simp [chatHandler, hsid, hc])
  | cons m rest =>
    cases hget : env.getFails with
    | true =>
      exact Or.inl (by simp [chatHandler, hsid, hc, getHistoryFromRedis, hget])
    | false =>
      cases hsel : selectedCall env payload.modelName
          (seedHistory (store.getD []) ++ [⟨m.role, m.text⟩]) with
      | none =>
        exact Or.inl
          (by simp [chatHandler, hsid, hc, getHistoryFromRedis, hget, hsel])
      | some r =>
        cases r with
        | error e =>
          exact Or.inl
            (by simp [chatHandler, hsid, hc, getHistoryFromRedis, hget, hsel])
        | ok aiText =>
          cases hsave : env.saveOk with
          | false =>
            exact Or.inl (by simp [chatHandler, hsid, hc, getHistoryFromRedis,
              hget, hsel, saveHistoryToRedis, hsave])
          | true =>
            refine Or.inr ⟨⟨m.role, m.text⟩, ⟨"ai", aiText⟩, ?_⟩
            simp [chatHandler, hsid, hc, getHistoryFromRedis, hget, hsel,
              saveHistoryToRedis, hsave]

/-- If every transcript stored under the session starts with the system
prompt, so does the history seeded from it. -/
lemma seedHistory_head (store : Option (List Message))
    (I : ∀ h, store = some h → h.head? = some systemPrompt) :
    (seedHistory (store.getD [])).head? = some systemPrompt := by
  cases store with
  | none => simp [seedHistory]
  | some h =>
    by_cases hh : h = []
    · subst hh; simp [seedHistory]
    · simpa [seedHistory, hh] using I h rfl

/-- One handler run preserves the head-is-system-prompt invariant of the
stored transcript. -/
lemma chatHandler_head_inv (env : ChatEnv) (payload : ClientRequestPayload)
    (store : Option (List Message))
    (I : ∀ h, store = some h → h.head? = some systemPrompt) :
    ∀ h, (chatHandler env payload store).store = some h →
      h.head? = some systemPrompt := by
  intro h hs
  rcases chatHandler_store_shape env payload store with heq | ⟨u, a, heq⟩
  · rw [heq] at hs
    exact I h hs
  · rw [heq] at hs
    obtain rfl : seedHistory (store.getD []) ++ [u, a] = h := by
      injection hs
    exact head?_append_of_head? _ _ _ (seedHistory_head store I)

/-- The invariant propagates through any sequence of turns. -/
lemma runTurns_head_inv (turns : List ChatTurn) :
    ∀ store : Option (List Message),
      (∀ h, store = some h → h.head? = some systemPrompt) →
      ∀ h, runTurns store turns = some h → h.head? = some systemPrompt := by
  induction turns with
  | nil =>
    intro store I h hs
    exact I h hs
  | cons t ts ih =>
    intro store I h hs
    exact ih _ (chatHandler_head_inv t.env t.payload store I) h hs

/-! ### Claim theorems -/

/-- C1 (counterexample): on the very first turn of a session (empty store)
the stored transcript gains three messages, not two: the system prompt is
stored in front of the user and AI messages, so the transcript after turn 1
is not the transcript after turn 0 extended by exactly one user message and
one AI message. -/
theorem first_turn_stores_three_messages :
    (chatHandler testEnv testPayload none).store =
      some [systemPrompt, ⟨"user", "hi"⟩, ⟨"ai", "hello"⟩]
    ∧ (chatHandler testEnv testPayload none).store ≠
      some [⟨"user", "hi"⟩, ⟨"ai", "hello"⟩] := by
  constructor
  · rfl
  · decide

/-- C1 (amended): on every turn whose loaded transcript is non-empty (every
turn after the first successful write), the stored transcript equals the
previous one extended by exactly the new message of the request followed by
the AI message with role "ai" and the adapter reply text, and the client
receives that reply. -/
theorem turn_extends_transcript_by_user_and_ai
    (env : ChatEnv) (payload : ClientRequestPayload) (m : ClientContent)
    (rest : List ClientContent) (h0 : List Message) (aiText : String)
    (hsid : payload.sessionID ≠ "") (hc : payload.contents = m :: rest)
    (hget : env.getFails = false) (hsave : env.saveOk = true) (hne : h0 ≠ [])
    (hcall : selectedCall env payload.modelName (h0 ++ [⟨m.role, m.text⟩]) =
      some (Except.ok aiText)) :
    (chatHandler env payload (some h0)).store =
      some (h0 ++ [⟨m.role, m.text⟩, ⟨"ai", aiText⟩])
    ∧ (chatHandler env payload (some h0)).reply = HttpReply.json aiText := by
  constructor <;>
    simp [chatHandler, hsid, hc, getHistoryFromRedis, hget, seedHistory, hne,
      hcall, saveHistoryToRedis, hsave]

/-- C1 witness: a concrete second turn on a stored transcript holding only
the system prompt appends exactly the user and AI messages. -/
theorem turn_extends_transcript_by_user_and_ai_witness :
    (chatHandler testEnv testPayload (some [systemPrompt])).store =
      some ([systemPrompt] ++ [⟨"user", "hi"⟩, ⟨"ai", "hello"⟩]) :=
  (turn_extends_transcript_by_user_and_ai testEnv testPayload ⟨"user", "hi"⟩
    [] [systemPrompt] "hello" (by decide) rfl rfl rfl (by decide) rfl).1

/-- C2: the Claude adapter maps the canonical ai role to the literal
provider role "asssitant" (a misspelling of the assistant keyword the claim
names), while the other adapters map ai to model resp. assistant, and all
four map user to user and system to user. -/
theorem claude_ai_role_is_misspelled :
    claudeRole "ai" = some "asssitant"
    ∧ claudeRole "ai" ≠ some "assistant"
    ∧ geminiRole "ai" = some "model"
    ∧ llamaRole "ai" = some "assistant"
    ∧ openaiRole "ai" = some "assistant"
    ∧ claudeRole "user" = some "user"
    ∧ claudeRole "system" = some "user"
    ∧ geminiRole "user" = some "user"
    ∧ geminiRole "system" = some "user"
    ∧ llamaRole "user" = some "user"
    ∧ llamaRole "system" = some "user"
    ∧ openaiRole "user" = some "user"
    ∧ openaiRole "system" = some "user" := by
  decide

/-- C3: for the Llama, Claude and ChatGPT adapters the outbound payload is
padded in front with one zero-valued message per input message (the Go
slice is created with `make(len)` and then appended to), so it does not
hold exactly one provider message per recognized input message; only the
Gemini adapter produces exactly the mapped messages. -/
theorem adapter_payloads_padded_with_zero_messages :
    llamaMessages [⟨"user", "hi"⟩] = [⟨"", ""⟩, ⟨"user", "hi"⟩]
    ∧ claudeMessages [⟨"user", "hi"⟩] = [⟨"", ""⟩, ⟨"user", "hi"⟩]
    ∧ openaiMessages [⟨"user", "hi"⟩] = [⟨"", ""⟩, ⟨"user", "hi"⟩]
    ∧ geminiContents [⟨"user", "hi"⟩] = [⟨"user", [⟨"hi"⟩]⟩]
    ∧ llamaMessages [⟨"user", "hi"⟩] ≠ [⟨"user", "hi"⟩] := by
  refine ⟨rfl, rfl, rfl, rfl, ?_⟩
  decide

/-- C4: when the session id is empty or the contents array carrying the new
message is absent or empty, the handler replies 400 with the validation
message and performs no store read, no provider call and no store write. -/
theorem validation_rejects_before_any_effect
    (env : ChatEnv) (payload : ClientRequestPayload)
    (store : Option (List Message))
    (h : payload.sessionID = "" ∨ payload.contents = []) :
    chatHandler env payload store =
      ⟨.error "Missing sessionId or message content" 400, store,
        false, false, false⟩ := by
  by_cases hsid : payload.sessionID = ""
  · simp [chatHandler, hsid]
  · rcases h with h | h
    · exact absurd h hsid
    · simp [chatHandler, hsid, h]

/-- C4 witness: a concrete request with an empty session id is rejected
with 400 and no effects. -/
theorem validation_rejects_before_any_effect_witness :
    chatHandler testEnv ⟨"", "gemini", [⟨"user", "hi"⟩]⟩ none =
      ⟨.error "Missing sessionId or message content" 400, none,
        false, false, false⟩ :=
  validation_rejects_before_any_effect testEnv ⟨"", "gemini", [⟨"user", "hi"⟩]⟩
    none (Or.inl rfl)

/-- C5: when the provider call succeeds with reply text but the store write
fails, the client still receives the 200 JSON reply with that text; the
write was attempted but the stored transcript is unchanged. -/
theorem reply_not_withheld_on_save_failure
    (env : ChatEnv) (payload : ClientRequestPayload) (m : ClientContent)
    (rest : List ClientContent) (store : Option (List Message))
    (aiText : String)
    (hsid : payload.sessionID ≠ "") (hc : payload.contents = m :: rest)
    (hget : env.getFails = false)
    (hcall : selectedCall env payload.modelName
        (seedHistory (store.getD []) ++ [⟨m.role, m.text⟩]) =
      some (Except.ok aiText))
    (hsave : env.saveOk = false) :
    (chatHandler env payload store).reply = HttpReply.json aiText
    ∧ (chatHandler env payload store).store = store
    ∧ (chatHandler env payload store).saveAttempted = true := by
  refine ⟨?_, ?_, ?_⟩ <;>
    simp [chatHandler, hsid, hc, getHistoryFromRedis, hget, hcall,
      saveHistoryToRedis, hsave]

/-- C5 witness: a concrete request in an environment whose store write
fails still returns the computed reply. -/
theorem reply_not_withheld_on_save_failure_witness :
    (chatHandler { testEnv with saveOk := false } testPayload none).reply =
      HttpReply.json "hello" :=
  (reply_not_withheld_on_save_failure { testEnv with saveOk := false }
    testPayload ⟨"user", "hi"⟩ [] none "hello" (by decide) rfl rfl rfl rfl).1

/-- C6: when the store read fails (store unreachable, as distinct from the
key being absent), the request aborts with 500 before any provider call and
before any store write, leaving the stored transcript unchanged. -/
theorem store_read_failure_aborts_request
    (env : ChatEnv) (payload : ClientRequestPayload)
    (store : Option (List Message)) (m : ClientContent)
    (rest : List ClientContent)
    (hsid : payload.sessionID ≠ "") (hc : payload.contents = m :: rest)
    (hget : env.getFails = true) :
    chatHandler env payload store =
      ⟨.error "Internal server error retrieving history" 500, store,
        true, false, false⟩ := by
  simp [chatHandler, hsid, hc, getHistoryFromRedis, hget]

/-- C6 witness: a concrete request against an unreachable store aborts with
500 and no provider call. -/
theorem store_read_failure_aborts_request_witness :
    chatHandler { testEnv with getFails := true } testPayload none =
      ⟨.error "Internal server error retrieving history" 500, none,
        true, false, false⟩ :=
  store_read_failure_aborts_request { testEnv with getFails := true }
    testPayload none ⟨"user", "hi"⟩ [] (by decide) rfl rfl

/-- C7: the assembler seeds the fixed system prompt exactly when the loaded
transcript is empty (an empty history becomes the one-element system-prompt
history, a non-empty history is passed through unchanged), and consequently
every transcript stored for a session that started from an empty store has
the system prompt at index 0. -/
theorem system_prompt_seeded_iff_history_empty :
    seedHistory [] = [systemPrompt]
    ∧ (∀ history : List Message, history ≠ [] → seedHistory history = history)
    ∧ (∀ (turns : List ChatTurn) (h : List Message),
        runTurns none turns = some h → h.head? = some systemPrompt) := by
  refine ⟨by simp [seedHistory], fun history hne => by simp [seedHistory, hne], ?_⟩
  intro turns h hs
  exact runTurns_head_inv turns none (fun h' hh => by cases hh) h hs

/-- C7 witness: the non-empty passthrough and the stored-head invariant at
a concrete one-turn run. -/
theorem system_prompt_seeded_iff_history_empty_witness :
    seedHistory [systemPrompt] = [systemPrompt]
    ∧ ([systemPrompt, Message.mk "user" "hi",
        Message.mk "ai" "hello"]).head? = some systemPrompt :=
  ⟨system_prompt_seeded_iff_history_empty.2.1 [systemPrompt] (by decide),
   system_prompt_seeded_iff_history_empty.2.2 [⟨testEnv, testPayload⟩]
     [systemPrompt, ⟨"user", "hi"⟩, ⟨"ai", "hello"⟩] rfl⟩

/-- C8: with valid fields and a reachable store, a model name outside the
four configured identifiers yields 400 with "Invalid model name", no
provider call, no store write, and an unchanged stored transcript. -/
theorem unknown_model_rejected_store_untouched
    (env : ChatEnv) (payload : ClientRequestPayload)
    (store : Option (List Message)) (m : ClientContent)
    (rest : List ClientContent)
    (hsid : payload.sessionID ≠ "") (hc : payload.contents = m :: rest)
    (hget : env.getFails = false)
    (h1 : payload.modelName ≠ "gemini") (h2 : payload.modelName ≠ "llama")
    (h3 : payload.modelName ≠ "claude") (h4 : payload.modelName ≠ "chatgpt") :
    chatHandler env payload store =
      ⟨.error "Invalid model name" 400, store, true, false, false⟩ := by
  simp [chatHandler, hsid, hc, getHistoryFromRedis, hget, selectedCall,
    h1, h2, h3, h4]

/-- C8 witness: a concrete request naming the model "unknown" is rejected
with 400 and the store is untouched. -/
theorem unknown_model_rejected_store_untouched_witness :
    chatHandler testEnv ⟨"s1", "unknown", [⟨"user", "hi"⟩]⟩ none =
      ⟨.error "Invalid model name" 400, none, true, false, false⟩ :=
  unknown_model_rejected_store_untouched testEnv
    ⟨"s1", "unknown", [⟨"user", "hi"⟩]⟩ none ⟨"user", "hi"⟩ []
    (by decide) rfl rfl (by decide) (by decide) (by decide) (by decide)

/-- C9: when the provider HTTP call answers with a non-200 status, the
handler replies 500 with the adapter error message embedding both the
upstream status code and the upstream body, the store write never happens
and the stored transcript is unchanged. -/
theorem upstream_error_preserves_status_and_body
    (env : ChatEnv) (payload : ClientRequestPayload)
    (store : Option (List Message)) (m : ClientContent)
    (rest : List ClientContent) (statusCode : Nat) (body : String)
    (hsid : payload.sessionID ≠ "") (hc : payload.contents = m :: rest)
    (hget : env.getFails = false)
    (hmodel : payload.modelName = "gemini" ∨ payload.modelName = "llama" ∨
      payload.modelName = "claude" ∨ payload.modelName = "chatgpt")
    (hkeys : env.geminiAPIKey ≠ "" ∧ env.llamaAPIKey ≠ "" ∧
      env.claudeAPIKey ≠ "" ∧ env.chatGPTAPIKey ≠ "")
    (hcode : statusCode ≠ 200)
    (hhttp : (∀ q, env.geminiHTTP q = .response statusCode body) ∧
      (∀ q, env.llamaHTTP q = .response statusCode body) ∧
      (∀ q, env.claudeHTTP q = .response statusCode body) ∧
      (∀ q, env.openaiHTTP q = .response statusCode body)) :
    chatHandler env payload store =
      ⟨.error ("API returned status code " ++ toString statusCode ++ ": " ++
        body) 500, store, true, true, false⟩ := by
  obtain ⟨hk1, hk2, hk3, hk4⟩ := hkeys
  obtain ⟨hh1, hh2, hh3, hh4⟩ := hhttp
  rcases hmodel with hm | hm | hm | hm <;>
    simp [chatHandler, hsid, hc, getHistoryFromRedis, hget, selectedCall, hm,
      callGeminiAPI, callLlamaAPI, callClaudeAPI, callChatGPTAPI,
      hk1, hk2, hk3, hk4, hh1, hh2, hh3, hh4, makeAPIRequest, hcode,
      apiStatusErrorMsg]

/-- C9 witness: a concrete request whose provider answers status 500 with
body "upstream boom" yields a 500 reply embedding both, with the store
untouched. -/
theorem upstream_error_preserves_status_and_body_witness :
    chatHandler upstreamFailEnv testPayload none =
      ⟨.error ("API returned status code " ++ toString 500 ++ ": " ++
        "upstream boom") 500, none, true, true, false⟩ :=
  upstream_error_preserves_status_and_body upstreamFailEnv testPayload none
    ⟨"user", "hi"⟩ [] 500 "upstream boom" (by decide) rfl rfl (Or.inl rfl)
    ⟨by decide, by decide, by decide, by decide⟩ (by decide)
    ⟨fun q => rfl, fun q => rfl, fun q => rfl, fun q => rfl⟩

/-- C10: the handler processes only the first element of the contents
array — the whole run is unchanged when the later elements are dropped —
and the appended message keeps the role string supplied by the client
verbatim, as shown by the stored transcript on a successful turn. -/
theorem only_first_content_element_used :
    (∀ (env : ChatEnv) (payload : ClientRequestPayload) (m : ClientContent)
        (rest : List ClientContent) (store : Option (List Message)),
      payload.contents = m :: rest →
      chatHandler env payload store =
        chatHandler env ⟨payload.sessionID, payload.modelName, [m]⟩ store)
    ∧ (∀ (env : ChatEnv) (payload : ClientRequestPayload) (m : ClientContent)
        (rest : List ClientContent) (store : Option (List Message))
        (aiText : String),
      payload.sessionID ≠ "" → payload.contents = m :: rest →
      env.getFails = false → env.saveOk = true →
      selectedCall env payload.modelName
          (seedHistory (store.getD []) ++ [⟨m.role, m.text⟩]) =
        some (Except.ok aiText) →
      (chatHandler env payload store).store =
        some (seedHistory (store.getD []) ++
          [⟨m.role, m.text⟩, ⟨"ai", aiText⟩])) := by
  constructor
  · intro env payload m rest store hc
    by_cases hsid : payload.sessionID = "" <;>
      simp [chatHandler, hsid, hc]
  · intro env payload m rest store aiText hsid hc hget hsave hcall
    simp [chatHandler, hsid, hc, getHistoryFromRedis, hget, hcall,
      saveHistoryToRedis, hsave]

/-- C10 witness: a concrete request with two contents elements behaves as
if only the first were present, and a first element with the role string
"banana" is stored verbatim. -/
theorem only_first_content_element_used_witness :
    chatHandler testEnv ⟨"s1", "gemini", [⟨"banana", "hi"⟩, ⟨"user", "x"⟩]⟩
        none =
      chatHandler testEnv ⟨"s1", "gemini", [⟨"banana", "hi"⟩]⟩ none
    ∧ (chatHandler testEnv
        ⟨"s1", "gemini", [⟨"banana", "hi"⟩, ⟨"user", "x"⟩]⟩ none).store =
      some (seedHistory (Option.getD none []) ++
        [⟨"banana", "hi"⟩, ⟨"ai", "hello"⟩]) :=
  ⟨only_first_content_element_used.1 testEnv
      ⟨"s1", "gemini", [⟨"banana", "hi"⟩, ⟨"user", "x"⟩]⟩ ⟨"banana", "hi"⟩
      [⟨"user", "x"⟩] none rfl,
   only_first_content_element_used.2 testEnv
      ⟨"s1", "gemini", [⟨"banana", "hi"⟩, ⟨"user", "x"⟩]⟩ ⟨"banana", "hi"⟩
      [⟨"user", "x"⟩] none "hello" (by decide) rfl rfl rfl rfl⟩

end Maya
